import Mathlib

/- Shallow embedding of drivers/mlcache/mlcache.c, built with
   CONFIG_MLCACHE_ACTIVE enabled (the configuration the scoring claims are
   about).  Unsigned long counters are modelled as Nat, signed long values as
   Int; C integer division truncates toward zero, hence Int.tdiv.  A page is
   identified by a numeric id standing for its pointer; the per-mapping radix
   tree is a list of slots, with `none` standing for an empty slot that the
   iterator skips.  The RCU retry and cond_resched machinery of the two scan
   loops has no effect on the sequential state and is not modelled. -/

namespace MLCache

/-- MLCACHE_SCALE, the learning model scaling factor (mlcache.c line 12). -/
def MLCACHE_SCALE : Nat := 100

/-- Embedding of upperBound (mlcache.c lines 33-39).  int_sqrt and ilog2 are
the kernel integer square root and floor base-2 logarithm, modelled by
Nat.sqrt and Nat.log2. -/
def upperBound (step numPlays : Nat) : Nat :=
  if step ≠ 0 ∧ numPlays ≠ 0 then
    Nat.sqrt (MLCACHE_SCALE * MLCACHE_SCALE * 2 *
      Nat.log2 (MLCACHE_SCALE * MLCACHE_SCALE * (step + 1)) / numPlays)
  else 0

/-- The fields of struct page the module reads or writes: `mapping` is true
when page->mapping is non-null (a resident page), false for a shadow. -/
structure Page where
  mapping : Bool
  mlcache_score : Int
  mlcache_plays : Nat
deriving Repr, DecidableEq

/-- Module-global state (mlcache.c lines 14-21) together with the page store
indexed by page id. -/
structure MLState where
  hits : Nat
  misses : Nat
  t : Nat
  weight_average : Int
  items_in_cache : Int
  pages : Nat → Page

/-- Write-back of one page into the store. -/
def setPage (st : MLState) (pid : Nat) (p : Page) : MLState :=
  { st with pages := fun i => if i = pid then p else st.pages i }

/-- Embedding of update_page_score (mlcache.c lines 42-55).  UINT_MAX is
4294967295: the C comparison promotes the long weight_average against that
unsigned int constant. -/
def update_page_score (st : MLState) (pid : Nat) (by_ : Int) (hit : Bool) : MLState :=
  let page := st.pages pid
  if page.mapping = false then st
  else if hit then
    let s1 := page.mlcache_score - by_
    let s2 := s1 + (upperBound (st.t - 1) page.mlcache_plays : Int)
                 - (upperBound st.t page.mlcache_plays : Int) * (page.mlcache_plays : Int)
    setPage st pid { page with mlcache_score := s2 }
  else
    let wa := if st.weight_average = 4294967295 then 0 else st.weight_average
    setPage { st with weight_average := wa } pid { page with mlcache_score := wa }

/-- Embedding of update_average (mlcache.c lines 57-64).  The saturating
branch stores (unsigned long)~0 into the signed long items_in_cache, which
is -1 on the two's-complement kernel ABI. -/
def update_average (st : MLState) (pid : Nat) : MLState :=
  let items := if st.items_in_cache = 0 then (-1 : Int) else st.items_in_cache
  { st with items_in_cache := items,
            weight_average :=
              st.weight_average + Int.tdiv (st.pages pid).mlcache_score items }

/-- Loop of penalize_pages (mlcache.c lines 80-110): skip empty slots, skip
pages with a live mapping, skip the missed page itself, and apply the miss
update to every remaining shadow. -/
def penalize_loop (st : MLState) (pid : Nat) : List (Option Nat) → MLState
  | [] => st
  | none :: rest => penalize_loop st pid rest
  | some qid :: rest =>
    let p := st.pages qid
    if p.mapping then penalize_loop st pid rest
    else if qid = pid then penalize_loop st pid rest
    else penalize_loop (update_page_score st qid (-(MLCACHE_SCALE : Int)) false) pid rest

/-- Embedding of penalize_pages (mlcache.c lines 66-113). -/
def penalize_pages (st : MLState) (pid : Nat)
    (mapping : Option (List (Option Nat))) : MLState :=
  match mapping with
  | none => st
  | some slots => penalize_loop st pid slots

/-- Miss-path loop of update_cache_scores (mlcache.c lines 135-185),
returning the updated state and the penalize flag.  The live-mapping skip
comes before the identity test, exactly as in the source; a match with score
zero applies the miss update and breaks, a match with nonzero score sets the
penalize flag and breaks. -/
def scan_loop (st : MLState) (pid : Nat) : List (Option Nat) → MLState × Bool
  | [] => (st, false)
  | none :: rest => scan_loop st pid rest
  | some qid :: rest =>
    let p := st.pages qid
    if p.mapping then scan_loop st pid rest
    else if qid = pid then
      if p.mlcache_score = 0 then (update_page_score st qid 0 false, false)
      else (st, true)
    else scan_loop (update_page_score st qid (-(MLCACHE_SCALE : Int)) false) pid rest

/-- Embedding of update_cache_scores (mlcache.c lines 115-191). -/
def update_cache_scores (st : MLState) (pid : Nat)
    (mapping : Option (List (Option Nat))) (hit : Bool) : MLState :=
  if hit then update_page_score st pid (MLCACHE_SCALE : Int) true
  else
    match mapping with
    | none => st
    | some slots =>
      let r := scan_loop st pid slots
      if r.2 then penalize_pages r.1 pid (some slots) else r.1

/-- Counter updates at the top of mlcache_pageget (mlcache.c lines 209-215):
the hit or miss counter, then the round counter t. -/
def count_event (st : MLState) (hit : Bool) : MLState :=
  let st1 := if hit then { st with hits := st.hits + 1 }
             else { st with misses := st.misses + 1 }
  { st1 with t := st1.t + 1 }

/-- Embedding of mlcache_pageget (mlcache.c lines 204-220), the lookup hook,
in the CONFIG_MLCACHE_ACTIVE build: a null page returns immediately;
otherwise the counters, the score update, the items_in_cache increment and
update_average run in source order. -/
def mlcache_pageget (st : MLState) (page : Option Nat)
    (mapping : Option (List (Option Nat))) (hit : Bool) : MLState :=
  match page with
  | none => st
  | some pid =>
    let st1 := count_event st hit
    let st2 := update_cache_scores st1 pid mapping hit
    let st3 := { st2 with items_in_cache := st2.items_in_cache + 1 }
    update_average st3 pid

/-- Observable outcome of module init: the value returned to the module
loader, whether the tracepoint hook was registered, and whether the hit and
miss counters were zeroed. -/
structure InitOut where
  ret : Int
  hook_registered : Bool
  counters_zeroed : Bool
deriving Repr, DecidableEq

/-- Embedding of mlcache_init (mlcache.c lines 246-260).  When proc_create
fails the function executes a return of NULL, i.e. the integer 0, before the
counter reset and before register_trace_mlcache_event; a zero return value is
the kernel success code for a module init function. -/
def mlcache_init (proc_create_ok : Bool) : InitOut :=
  if proc_create_ok = false then ⟨0, false, false⟩
  else ⟨0, true, true⟩

/-- Stated from the spec (section 4.2) for comparison with the code:
applyMissNeutral is the applyHit-shaped update with reward 0, recomputing
only the exploration-bonus term. -/
def specApplyMissNeutral (st : MLState) (pid : Nat) : MLState :=
  let p := st.pages pid
  setPage st pid { p with mlcache_score :=
    p.mlcache_score + (upperBound (st.t - 1) p.mlcache_plays : Int)
      - (upperBound st.t p.mlcache_plays : Int) * (p.mlcache_plays : Int) }

/-- Stated from the spec (section 4.2) for comparison with the code:
applyMissSeed resets a saturated runningAverage to 0 and then sets the item
score to runningAverage. -/
def specApplyMissSeed (st : MLState) (pid : Nat) : MLState :=
  let wa := if st.weight_average = 4294967295 then 0 else st.weight_average
  let p := st.pages pid
  setPage { st with weight_average := wa } pid { p with mlcache_score := wa }

/-- Stated from the spec (section 4.4 and claim C8) for comparison with the
code: fold saturates a zero trackedItemCount to the maximum representable
value, adds item.score divided by the pre-increment count, then increments
the count. -/
def specFold (st : MLState) (pid : Nat) : MLState :=
  let c := if st.items_in_cache = 0 then (18446744073709551615 : Int)
           else st.items_in_cache
  { st with weight_average :=
              st.weight_average + Int.tdiv (st.pages pid).mlcache_score c,
            items_in_cache := c + 1 }

/-- Concrete page store for the C1 scenario: page 0 is the missed page, a
shadow with nonzero score 7; pages 1 and 2 are other shadows with scores 50
and 60. -/
def exPages1 : Nat → Page := fun i =>
  if i = 0 then ⟨false, 7, 0⟩ else if i = 1 then ⟨false, 50, 0⟩ else ⟨false, 60, 0⟩

/-- Engine state for the C1 scenario (t already incremented to 1). -/
def exSt1 : MLState := ⟨0, 0, 1, 0, 0, exPages1⟩

/-- Page store for the C3 scenario: every page a shadow with score 0 and one
play. -/
def exPages3 : Nat → Page := fun _ => ⟨false, 0, 1⟩

/-- Engine state for the C3 scenario. -/
def exSt3 : MLState := ⟨0, 0, 1, 0, 0, exPages3⟩

/-- Page store for the C4 scenario: the missed page is a shadow with score 5,
distinct from the running average. -/
def exPages4 : Nat → Page := fun _ => ⟨false, 5, 0⟩

/-- Engine state for the C4 scenario, with running average 17. -/
def exSt4 : MLState := ⟨0, 0, 1, 17, 0, exPages4⟩

/-- Page store for the C6 scenario: a fresh resident page, score 0, zero
plays. -/
def exPages6 : Nat → Page := fun _ => ⟨true, 0, 0⟩

/-- Fresh engine state for the C6 end-to-end hit scenario. -/
def exSt6 : MLState := ⟨0, 0, 0, 0, 0, exPages6⟩

/-- Page store for the C8 scenario: the looked-up page has score 5. -/
def exPages8 : Nat → Page := fun _ => ⟨false, 5, 0⟩

/-- Fresh engine state for the C8 scenario: trackedItemCount starts at 0. -/
def exSt8 : MLState := ⟨0, 0, 0, 0, 0, exPages8⟩

/-- Engine state for the C5 witness: round counter 1, resident page with
score 7 and zero plays. -/
def exSt5 : MLState := ⟨0, 0, 1, 0, 0, fun _ => ⟨true, 7, 0⟩⟩

end MLCache

namespace MLCache

theorem log2_20000 : Nat.log2 20000 = 14 := by
  have h1 : Nat.log2 20000 < 15 := (Nat.log2_lt (by norm_num)).mpr (by norm_num)
  have h2 : 14 ≤ Nat.log2 20000 := (Nat.le_log2 (by norm_num)).mpr (by norm_num)
  omega

theorem ub_one_one : upperBound 1 1 = 529 := by
  have hl : Nat.log2 (MLCACHE_SCALE * MLCACHE_SCALE * (1 + 1)) = 14 := by
    rw [show MLCACHE_SCALE * MLCACHE_SCALE * (1 + 1) = 20000 from by decide]
    exact log2_20000
  rw [upperBound, if_pos (by norm_num), hl]
  norm_num [MLCACHE_SCALE]

theorem update_page_score_shadow (st : MLState) (pid : Nat) (b : Int) (hit : Bool)
    (h : (st.pages pid).mapping = false) : update_page_score st pid b hit = st := by
  simp [update_page_score, h]

theorem penalize_loop_id (pid : Nat) :
    ∀ (slots : List (Option Nat)) (st : MLState), penalize_loop st pid slots = st := by
  intro slots
  induction slots with
  | nil => intro st; rfl
  | cons s rest ih =>
    intro st
    match s with
    | none => exact ih st
    | some qid =>
      simp only [penalize_loop]
      by_cases hm : (st.pages qid).mapping
      · simp [hm, ih st]
      · simp only [Bool.not_eq_true] at hm
        simp [hm, update_page_score_shadow st qid _ false hm, ih st]

theorem scan_loop_fst (pid : Nat) :
    ∀ (slots : List (Option Nat)) (st : MLState), (scan_loop st pid slots).1 = st := by
  intro slots
  induction slots with
  | nil => intro st; rfl
  | cons s rest ih =>
    intro st
    match s with
    | none => exact ih st
    | some qid =>
      simp only [scan_loop]
      by_cases hm : (st.pages qid).mapping
      · simp [hm, ih st]
      · simp only [Bool.not_eq_true] at hm
        by_cases hq : qid = pid
        · subst hq
          by_cases hs : (st.pages qid).mlcache_score = 0
          · simp [hm, hs, update_page_score_shadow st qid 0 false hm]
          · simp [hm, hs]
        · simp [hm, hq, update_page_score_shadow st qid _ false hm, ih st]

theorem miss_identity (st : MLState) (pid : Nat) (mapping : Option (List (Option Nat))) :
    update_cache_scores st pid mapping false = st := by
  match mapping with
  | none => rfl
  | some slots =>
    simp only [update_cache_scores]
    by_cases hp : (scan_loop st pid slots).2
    · simp [hp, penalize_pages, scan_loop_fst pid slots st, penalize_loop_id pid slots]
    · simp [hp, scan_loop_fst pid slots st]

theorem update_page_score_items (st : MLState) (pid : Nat) (b : Int) (hit : Bool) :
    (update_page_score st pid b hit).items_in_cache = st.items_in_cache := by
  simp only [update_page_score, setPage]
  split
  · rfl
  · split <;> rfl

theorem count_event_items (st : MLState) (hit : Bool) :
    (count_event st hit).items_in_cache = st.items_in_cache := by
  cases hit <;> rfl

theorem update_cache_scores_items (st : MLState) (pid : Nat)
    (mapping : Option (List (Option Nat))) (hit : Bool) :
    (update_cache_scores st pid mapping hit).items_in_cache = st.items_in_cache := by
  cases hit
  · rw [miss_identity]
  · simp only [update_cache_scores]
    exact update_page_score_items st pid _ true

/-- C2: on every miss-path invocation no item score is ever modified.  Every
page the scan loops pass to update_page_score has been filtered to a null
mapping, and update_page_score returns immediately for a null mapping, so
the penalty, neutral and seed updates of the miss path are all no-ops: the
whole miss invocation of update_cache_scores leaves the state unchanged. -/
theorem C2_miss_path_is_noop :
    ∀ (st : MLState) (pid : Nat) (mapping : Option (List (Option Nat))),
      update_cache_scores st pid mapping false = st :=
  fun st pid mapping => miss_identity st pid mapping

/-- C1: evaluation of the code at the failing input of the claim.  Page 0 is
the missed shadow with nonzero score 7 and pages 1 and 2 are the two other
zero-play shadows (scores 50 and 60) in a three-item collection; the claim
says each other shadow ends with its score reduced by exactly K = 100, but
the code leaves both scores unchanged. -/
theorem C1_penalty_noop_eval :
    ((update_cache_scores exSt1 0 (some [some 1, some 0, some 2]) false).pages 1).mlcache_score = 50
  ∧ ((update_cache_scores exSt1 0 (some [some 1, some 0, some 2]) false).pages 2).mlcache_score = 60
  ∧ (50 : Int) ≠ 50 - (MLCACHE_SCALE : Int)
  ∧ (60 : Int) ≠ 60 - (MLCACHE_SCALE : Int) := by
  refine ⟨by decide, by decide, ?_, ?_⟩ <;> · rw [MLCACHE_SCALE]; decide

/-- C7: contract of the exploration bound.  bound is 0 when step or plays is
0, is always non-negative, and otherwise equals the integer square root of
2 * K^2 * log2(K^2 * (step + 1)) / plays with K = 100, using integer square
root and integer base-2 logarithm. -/
theorem C7_bound_contract :
    ∀ step plays : Nat,
      upperBound 0 plays = 0
    ∧ upperBound step 0 = 0
    ∧ 0 ≤ upperBound step plays
    ∧ (step ≠ 0 → plays ≠ 0 →
        upperBound step plays =
          Nat.sqrt (2 * MLCACHE_SCALE ^ 2 *
            Nat.log2 (MLCACHE_SCALE ^ 2 * (step + 1)) / plays)) := by
  intro step plays
  refine ⟨by simp [upperBound], by simp [upperBound], Nat.zero_le _, fun hs hp => ?_⟩
  rw [upperBound, if_pos ⟨hs, hp⟩]
  have h1 : MLCACHE_SCALE * MLCACHE_SCALE * 2 = 2 * MLCACHE_SCALE ^ 2 := by
    rw [MLCACHE_SCALE]; ring
  have h2 : MLCACHE_SCALE * MLCACHE_SCALE * (step + 1) = MLCACHE_SCALE ^ 2 * (step + 1) := by
    rw [MLCACHE_SCALE]; ring
  rw [h1, h2]

/-- C7 witness: the contract instantiated at step = 1, plays = 1, with both
hypotheses of the conditional clause discharged. -/
theorem C7_bound_contract_witness :
    upperBound 0 1 = 0
  ∧ upperBound 1 0 = 0
  ∧ 0 ≤ upperBound 1 1
  ∧ upperBound 1 1 =
      Nat.sqrt (2 * MLCACHE_SCALE ^ 2 * Nat.log2 (MLCACHE_SCALE ^ 2 * (1 + 1)) / 1) := by
  obtain ⟨a, b, c, d⟩ := C7_bound_contract 1 1
  exact ⟨(C7_bound_contract 0 1).1, b, c, d (by decide) (by decide)⟩

/-- C9: evaluation of mlcache_init when proc_create fails.  The function
returns 0 (the literal NULL, which is the module-init success code rather
than a non-success value) while the lookup hook is left unregistered and the
counters are not reset: the engine partially starts yet reports success. -/
theorem C9_init_failure_eval :
    (mlcache_init false).ret = 0
  ∧ (mlcache_init false).hook_registered = false
  ∧ (mlcache_init false).counters_zeroed = false := by
  decide

/-- C10: a lookup with a null page pointer is a complete no-op: no counter,
no running average, no tracked-item count and no page is modified. -/
theorem C10_null_page_noop :
    ∀ (st : MLState) (mapping : Option (List (Option Nat))) (hit : Bool),
      mlcache_pageget st none mapping hit = st :=
  fun _ _ _ => rfl

/-- C3 counterexample: a miss that finds the missed item as a shadow with
score exactly 0 (round counter 1, one play) leaves the score at 0, while the
neutral update described by the claim, which recomputes the exploration
bonus, would move it to -529: the code does not apply the neutral update. -/
theorem C3_counterexample :
    ((update_cache_scores exSt3 0 (some [some 0]) false).pages 0).mlcache_score = 0
  ∧ ((specApplyMissNeutral exSt3 0).pages 0).mlcache_score = -529
  ∧ ((0 : Int) ≠ -529) := by
  refine ⟨by decide, ?_, by decide⟩
  have h0 : upperBound 0 1 = 0 := by decide
  simp [specApplyMissNeutral, setPage, exSt3, exPages3, h0, ub_one_one]

/-- C3 amended: on a miss where the missed item is found with score exactly
0, the scan stops and no other item is penalized, and the neutral call is a
no-op: no score, the missed item's included, changes at all (the call is
blocked by the null-mapping guard of update_page_score). -/
theorem C3_score_zero_match_noop (st : MLState) (pid : Nat) (slots : List (Option Nat))
    (h1 : (st.pages pid).mapping = false) (h2 : (st.pages pid).mlcache_score = 0) :
    update_cache_scores st pid (some slots) false = st :=
  miss_identity st pid (some slots)

/-- C3 witness: the amended statement at the concrete scenario of the
counterexample. -/
theorem C3_score_zero_match_noop_witness :
    (exSt3.pages 0).mapping = false
  ∧ (exSt3.pages 0).mlcache_score = 0
  ∧ update_cache_scores exSt3 0 (some [some 0]) false = exSt3 :=
  ⟨by decide, by decide, C3_score_zero_match_noop exSt3 0 [some 0] (by decide) (by decide)⟩

/-- C4 counterexample: a miss with an absent collection and a missed item of
score 5 leaves the score at 5, while applyMissSeed as described by the claim
would set it to the running average 17: the code never applies the seed. -/
theorem C4_counterexample :
    ((update_cache_scores exSt4 0 none false).pages 0).mlcache_score = 5
  ∧ ((specApplyMissSeed exSt4 0).pages 0).mlcache_score = 17
  ∧ ((5 : Int) ≠ 17) := by
  decide

/-- C4 amended: on a miss where the scan completes without finding any entry
for the missed item, or where the collection is absent, no update at all is
applied to the missed item: its score is unchanged and applyMissSeed is
never invoked. -/
theorem C4_no_match_noop (st : MLState) (pid : Nat)
    (mapping : Option (List (Option Nat)))
    (h : mapping = none ∨ ∀ slots, mapping = some slots → (some pid) ∉ slots) :
    update_cache_scores st pid mapping false = st :=
  miss_identity st pid mapping

/-- C4 witness: the amended statement for the absent-collection case of the
counterexample. -/
theorem C4_no_match_noop_witness :
    ((none : Option (List (Option Nat))) = none
      ∨ ∀ slots, (none : Option (List (Option Nat))) = some slots → (some 0) ∉ slots)
  ∧ update_cache_scores exSt4 0 none false = exSt4 :=
  ⟨Or.inl rfl, C4_no_match_noop exSt4 0 none (Or.inl rfl)⟩

/-- C5: on a hit of an item with a live mapping, only that item's score is
updated, by exactly score := score - K + bound(t - 1, plays) -
bound(t, plays) * plays with K = 100 the reward; every other item and every
global counter is untouched by the hit update. -/
theorem C5_hit_updates_only_item (st : MLState) (pid : Nat)
    (mapping : Option (List (Option Nat)))
    (hmap : (st.pages pid).mapping = true) (ht : 1 ≤ st.t) :
    ((update_cache_scores st pid mapping true).pages pid).mlcache_score
      = (st.pages pid).mlcache_score - (MLCACHE_SCALE : Int)
        + (upperBound (st.t - 1) (st.pages pid).mlcache_plays : Int)
        - (upperBound st.t (st.pages pid).mlcache_plays : Int)
            * ((st.pages pid).mlcache_plays : Int)
  ∧ (∀ q, q ≠ pid → (update_cache_scores st pid mapping true).pages q = st.pages q)
  ∧ ((update_cache_scores st pid mapping true).pages pid).mlcache_plays
      = (st.pages pid).mlcache_plays
  ∧ ((update_cache_scores st pid mapping true).pages pid).mapping = true
  ∧ (update_cache_scores st pid mapping true).weight_average = st.weight_average
  ∧ (update_cache_scores st pid mapping true).items_in_cache = st.items_in_cache
  ∧ (update_cache_scores st pid mapping true).hits = st.hits
  ∧ (update_cache_scores st pid mapping true).misses = st.misses
  ∧ (update_cache_scores st pid mapping true).t = st.t := by
  have he : update_cache_scores st pid mapping true
      = setPage st pid { st.pages pid with mlcache_score :=
          (st.pages pid).mlcache_score - (MLCACHE_SCALE : Int)
          + (upperBound (st.t - 1) (st.pages pid).mlcache_plays : Int)
          - (upperBound st.t (st.pages pid).mlcache_plays : Int)
              * ((st.pages pid).mlcache_plays : Int) } := by
    simp [update_cache_scores, update_page_score, hmap]
  rw [he]
  refine ⟨by simp [setPage], fun q hq => by simp [setPage, hq], by simp [setPage],
    by simp [setPage, hmap], by simp [setPage], by simp [setPage], by simp [setPage],
    by simp [setPage], by simp [setPage]⟩

/-- C5 witness: the hit contract at a concrete resident page with score 7,
zero plays and round counter 1. -/
theorem C5_hit_updates_only_item_witness :
    (exSt5.pages 0).mapping = true
  ∧ 1 ≤ exSt5.t
  ∧ (((update_cache_scores exSt5 0 none true).pages 0).mlcache_score
      = (exSt5.pages 0).mlcache_score - (MLCACHE_SCALE : Int)
        + (upperBound (exSt5.t - 1) (exSt5.pages 0).mlcache_plays : Int)
        - (upperBound exSt5.t (exSt5.pages 0).mlcache_plays : Int)
            * ((exSt5.pages 0).mlcache_plays : Int)
    ∧ (∀ q, q ≠ 0 → (update_cache_scores exSt5 0 none true).pages q = exSt5.pages q)
    ∧ ((update_cache_scores exSt5 0 none true).pages 0).mlcache_plays
        = (exSt5.pages 0).mlcache_plays
    ∧ ((update_cache_scores exSt5 0 none true).pages 0).mapping = true
    ∧ (update_cache_scores exSt5 0 none true).weight_average = exSt5.weight_average
    ∧ (update_cache_scores exSt5 0 none true).items_in_cache = exSt5.items_in_cache
    ∧ (update_cache_scores exSt5 0 none true).hits = exSt5.hits
    ∧ (update_cache_scores exSt5 0 none true).misses = exSt5.misses
    ∧ (update_cache_scores exSt5 0 none true).t = exSt5.t) :=
  ⟨by decide, by decide, C5_hit_updates_only_item exSt5 0 none (by decide) (by decide)⟩

/-- C6 counterexample: a single hit lookup on a fresh engine moves the round
counter from 0 to 1 but leaves the page's play count at 0 (mlcache_plays is
never incremented anywhere in the module) and its score at -100, whereas the
claim predicts play count 1 and score -100 - bound(1,1). -/
theorem C6_counterexample :
    ((mlcache_pageget exSt6 (some 0) (some [some 0]) true).pages 0).mlcache_plays = 0
  ∧ ((mlcache_pageget exSt6 (some 0) (some [some 0]) true).pages 0).mlcache_score = -100
  ∧ ((0 : Nat) ≠ 1)
  ∧ ((-100 : Int) ≠ -100 - (upperBound 1 1 : Int)) := by
  refine ⟨by decide, by decide, by decide, ?_⟩
  rw [ub_one_one]
  decide

/-- C6 amended: a single hit lookup on a fresh engine takes roundCounter
from 0 to 1 and hitCount from 0 to 1, leaves the item's playCount at 0, and
leaves the item's score equal to -K + bound(0,0) - bound(1,0)*0 = -100. -/
theorem C6_fresh_hit_eval :
    (mlcache_pageget exSt6 (some 0) (some [some 0]) true).hits = 1
  ∧ (mlcache_pageget exSt6 (some 0) (some [some 0]) true).t = 1
  ∧ ((mlcache_pageget exSt6 (some 0) (some [some 0]) true).pages 0).mlcache_plays = 0
  ∧ ((mlcache_pageget exSt6 (some 0) (some [some 0]) true).pages 0).mlcache_score = -100 := by
  decide

/-- C8 counterexample: starting from trackedItemCount = 0 with an item of
score 5, the engine increments items_in_cache before update_average runs, so
the running average gains 5 / 1 = 5; the fold described by the claim, which
saturates the zero count to the maximum representable value and divides by
that pre-increment count, would gain 0: the claim misstates the order. -/
theorem C8_counterexample :
    (mlcache_pageget exSt8 (some 0) none false).weight_average = 5
  ∧ (specFold exSt8 0).weight_average = 0
  ∧ ((5 : Int) ≠ 0) := by
  decide

/-- C8 amended: on every lookup the items_in_cache increment precedes
update_average, so starting from a non-negative count the saturating branch
is not taken and the division is by the post-increment count, which is
positive, never zero. -/
theorem C8_fold_divides_by_post_increment (st : MLState) (pid : Nat)
    (mapping : Option (List (Option Nat))) (hit : Bool)
    (h : 0 ≤ st.items_in_cache) :
    st.items_in_cache + 1 ≠ 0
  ∧ (mlcache_pageget st (some pid) mapping hit).items_in_cache = st.items_in_cache + 1
  ∧ (mlcache_pageget st (some pid) mapping hit).weight_average
      = (update_cache_scores (count_event st hit) pid mapping hit).weight_average
        + Int.tdiv
            ((update_cache_scores (count_event st hit) pid mapping hit).pages pid).mlcache_score
            (st.items_in_cache + 1) := by
  have hne : st.items_in_cache + 1 ≠ 0 := by omega
  have hitems : (update_cache_scores (count_event st hit) pid mapping hit).items_in_cache
      = st.items_in_cache := by
    rw [update_cache_scores_items, count_event_items]
  have hunfold : mlcache_pageget st (some pid) mapping hit
      = update_average { update_cache_scores (count_event st hit) pid mapping hit with
          items_in_cache :=
            (update_cache_scores (count_event st hit) pid mapping hit).items_in_cache + 1 }
          pid := rfl
  refine ⟨hne, ?_, ?_⟩
  · rw [hunfold]
    simp [update_average, hitems, hne]
  · rw [hunfold]
    simp [update_average, hitems, hne]

/-- C8 witness: the amended statement on a fresh engine with
trackedItemCount 0 and an item of score 5. -/
theorem C8_fold_divides_by_post_increment_witness :
    (0 : Int) ≤ exSt8.items_in_cache
  ∧ (exSt8.items_in_cache + 1 ≠ 0
    ∧ (mlcache_pageget exSt8 (some 0) none false).items_in_cache = exSt8.items_in_cache + 1
    ∧ (mlcache_pageget exSt8 (some 0) none false).weight_average
        = (update_cache_scores (count_event exSt8 false) 0 none false).weight_average
          + Int.tdiv
              ((update_cache_scores (count_event exSt8 false) 0 none false).pages 0).mlcache_score
              (exSt8.items_in_cache + 1)) :=
  ⟨by decide, C8_fold_divides_by_post_increment exSt8 0 none false (by decide)⟩

end MLCache
